import Mathlib

/-!
# Brazyl — verification of the resilient integration and delivery pipeline

Shallow embedding of the core of the `brazyl` repository:

* the retrying upstream clients (`CamaraAPI._request`, `SenadoAPI._request`,
  `TransparenciaAPI._request` in `app/integrations/{camara,senado,transparencia}_api.py`),
* the Redis cache decorator (`app/integrations/redis_client.py`),
* the record normalizers (`CamaraAPI.normalize_deputado`, `SenadoAPI.normalize_senador`),
* the notification dispatcher and sweep
  (`NotificationService.send_notification`, `NotificationService.process_pending_notifications`
  in `app/services/notification_service.py`).

Python values flowing through these functions are modelled by a small JSON-like
value type; `await`ed effects (HTTP attempts, backoff sleeps, store writes,
gateway sends) are made explicit as trace events or environment inputs, so the
embedded functions are pure and executable.
-/

namespace Brazyl

/-- JSON-like values, the payloads moved by the Python code.
`Json.null` is Python `None` (`json.loads "null"` gives `None`). -/
inductive Json : Type
  | null : Json
  | bool (b : Bool) : Json
  | num (n : Int) : Json
  | str (s : String) : Json
  | arr (xs : List Json) : Json
  | obj (fields : List (String × Json)) : Json

/-- The outcome of one HTTP attempt of a client `_request` loop:
a parsed JSON body, an `httpx.HTTPStatusError` with its status code, or an
`httpx.RequestError` (connection/timeout) with its message. -/
inductive Outcome : Type
  | success (body : Json)
  | httpError (status : Nat)
  | connError (msg : String)

/-- `Outcome.transient o` holds when the attempt failed with an error the
clients classify as retriable: any HTTP error status other than 404, or a
connection error. -/
def Outcome.transient : Outcome → Prop
  | .success _ => False
  | .httpError st => st ≠ 404
  | .connError _ => True

instance : DecidablePred Outcome.transient := by
  intro o; cases o <;> simp [Outcome.transient] <;> infer_instance

/-- The exception raised by a client `_request` (`CamaraAPIError`,
`SenadoAPIError`, `TransparenciaAPIError`), by message shape. -/
inductive ClientErr : Type
  | recursoNaoEncontrado (endpoint : String)
  | erroHTTP (status : Nat) (endpoint : String)
  | erroDeConexao (msg : String)
  | falhaAposTentativas (retry : Nat)
deriving DecidableEq, Repr

/-- Observable result of one `_request` call: the returned body or raised
error, the backoff sleeps awaited (in seconds, in order), and how many HTTP
attempts were made. -/
structure ReqResult : Type where
  result : Except ClientErr Json
  sleeps : List Nat
  attempts : Nat

/-- Wrap a transient last-attempt error in the exhausted-retries exception,
as the final `else` branches of the `_request` loops do. -/
def exhaust (endpoint : String) : Outcome → ClientErr
  | .success _ => .falhaAposTentativas 0
  | .httpError st => .erroHTTP st endpoint
  | .connError m => .erroDeConexao m

/-- The body of `CamaraAPI._request`'s `for attempt in range(retry)` loop
(camara_api.py lines 52-91), with the attempt outcomes supplied by `f`.
`i` is the current value of `attempt`, `rem` the iterations remaining
(`retry - i`). On HTTP 404 the loop raises `CamaraAPIError("Recurso não
encontrado")` at once; on another HTTP error or a connection error it sleeps
`2 ** attempt` and retries while `attempt < retry - 1`, else raises; falling
out of the loop raises `CamaraAPIError("Falha após {retry} tentativas")`. -/
def camaraGo (endpoint : String) (f : Nat → Outcome) (retry : Nat) : Nat → Nat → ReqResult
  | _, 0 => ⟨.error (.falhaAposTentativas retry), [], 0⟩
  | i, rem + 1 =>
    match f i with
    | .success body => ⟨.ok body, [], 1⟩
    | .httpError st =>
      if st = 404 then ⟨.error (.recursoNaoEncontrado endpoint), [], 1⟩
      else if i < retry - 1 then
        let r := camaraGo endpoint f retry (i + 1) rem
        ⟨r.result, 2 ^ i :: r.sleeps, r.attempts + 1⟩
      else ⟨.error (.erroHTTP st endpoint), [], 1⟩
    | .connError m =>
      if i < retry - 1 then
        let r := camaraGo endpoint f retry (i + 1) rem
        ⟨r.result, 2 ^ i :: r.sleeps, r.attempts + 1⟩
      else ⟨.error (.erroDeConexao m), [], 1⟩

/-- `CamaraAPI._request(endpoint, params, retry)` (camara_api.py lines 33-91),
with the network abstracted as the attempt-outcome function `f`. -/
def camara_request (endpoint : String) (f : Nat → Outcome) (retry : Nat := 3) : ReqResult :=
  camaraGo endpoint f retry 0 retry

/-- The body of `SenadoAPI._request`'s retry loop (senado_api.py lines 33-95);
identical classification and backoff to `camaraGo` (404 raises immediately,
other errors sleep `2 ** attempt` and retry while attempts remain). -/
def senadoGo (endpoint : String) (f : Nat → Outcome) (retry : Nat) : Nat → Nat → ReqResult
  | _, 0 => ⟨.error (.falhaAposTentativas retry), [], 0⟩
  | i, rem + 1 =>
    match f i with
    | .success body => ⟨.ok body, [], 1⟩
    | .httpError st =>
      if st = 404 then ⟨.error (.recursoNaoEncontrado endpoint), [], 1⟩
      else if i < retry - 1 then
        let r := senadoGo endpoint f retry (i + 1) rem
        ⟨r.result, 2 ^ i :: r.sleeps, r.attempts + 1⟩
      else ⟨.error (.erroHTTP st endpoint), [], 1⟩
    | .connError m =>
      if i < retry - 1 then
        let r := senadoGo endpoint f retry (i + 1) rem
        ⟨r.result, 2 ^ i :: r.sleeps, r.attempts + 1⟩
      else ⟨.error (.erroDeConexao m), [], 1⟩

/-- `SenadoAPI._request(endpoint, params, retry)`. -/
def senado_request (endpoint : String) (f : Nat → Outcome) (retry : Nat := 3) : ReqResult :=
  senadoGo endpoint f retry 0 retry

/-- `data if isinstance(data, list) else [data]` (transparencia_api.py line 64). -/
def asList : Json → Json
  | .arr xs => .arr xs
  | j => .arr [j]

/-- The body of `TransparenciaAPI._request`'s retry loop (transparencia_api.py
lines 52-91). Differences from the legislative clients: on HTTP 404 it
`return []` (no exception); the backoff base is `3 ** attempt`; a successful
body is wrapped into a list when it is not one; falling out of the loop
`return []`. -/
def transparenciaGo (endpoint : String) (f : Nat → Outcome) (retry : Nat) : Nat → Nat → ReqResult
  | _, 0 => ⟨.ok (.arr []), [], 0⟩
  | i, rem + 1 =>
    match f i with
    | .success body => ⟨.ok (asList body), [], 1⟩
    | .httpError st =>
      if st = 404 then ⟨.ok (.arr []), [], 1⟩
      else if i < retry - 1 then
        let r := transparenciaGo endpoint f retry (i + 1) rem
        ⟨r.result, 3 ^ i :: r.sleeps, r.attempts + 1⟩
      else ⟨.error (.erroHTTP st endpoint), [], 1⟩
    | .connError m =>
      if i < retry - 1 then
        let r := transparenciaGo endpoint f retry (i + 1) rem
        ⟨r.result, 3 ^ i :: r.sleeps, r.attempts + 1⟩
      else ⟨.error (.erroDeConexao m), [], 1⟩

/-- `TransparenciaAPI._request(endpoint, params, retry)`. -/
def transparencia_request (endpoint : String) (f : Nat → Outcome) (retry : Nat := 3) : ReqResult :=
  transparenciaGo endpoint f retry 0 retry

/-! ## Notification dispatcher (`NotificationService`, notification_service.py) -/

/-- `NotificationStatus` (schemas/notification.py): delivery status of a
notification. -/
inductive NStatus : Type
  | pending
  | sent
  | delivered
  | failed
deriving DecidableEq, Repr

/-- The row `send_notification` fetches: the notification joined with the
recipient's `users.whatsapp_number` (`select("*, users(whatsapp_number)")`).
`whatsapp = none` models a missing/NULL number; the empty string is also an
unresolvable address (Python `if not whatsapp`). -/
structure NotifRow : Type where
  whatsapp : Option String
  title : String
  message : String

/-- Python truthiness of the resolved `whatsapp_number`: `None` and `""` are
falsy. -/
def truthyStr : Option String → Bool
  | none => false
  | some s => s ≠ ""

/-- One observable effect of a dispatch: a successful
`update_notification_status` write (with the extra fields it persisted), or an
`AvisaAPI.send_message` invocation. -/
inductive Event : Type
  | update (status : NStatus) (sentAt deliveredAt errorMessage : Option String)
  | send (phone message : String)
deriving DecidableEq, Repr

/-- Environment of one `send_notification` call: what the store returned for
the fetch, whether each `update_notification_status` call succeeds (else it
raises `SupabaseClientError`), whether `AvisaAPI.send_message` succeeds (else
it raises), and the clock values read. -/
structure DispatchEnv : Type where
  fetched : Option NotifRow
  sentUpdateOk : Bool
  gatewayOk : Bool
  deliveredUpdateOk : Bool
  failedUpdateOk : Bool
  nowIso : String
  nowBr : String

/-- `NotificationService._format_message(title, message)`
(notification_service.py lines 294-310). -/
def format_message (title message nowBr : String) : String :=
  "*🇧🇷 Brazyl - Acompanhe Políticos*\n\n*" ++ title ++ "*\n\n" ++ message ++
    "\n\n_Enviado em " ++ nowBr ++ "_"

/-- `NotificationService.send_notification(notification_id)`
(notification_service.py lines 85-160), returning the Python result
(`True` or the raised `NotificationServiceError` message) together with the
trace of store writes and gateway invocations, in order:

* fetch the notification with the user's WhatsApp number; no data → raise;
* `if not whatsapp` → raise `"WhatsApp do usuário não encontrado"` with no
  store write and no gateway call;
* update status to `SENT` with `sent_at` (a failure here raises
  `SupabaseClientError`, caught by the outer handler);
* call `AvisaAPI.send_message`; on success update to `DELIVERED` with
  `delivered_at` and return `True`; on any exception — including a failure of
  the `DELIVERED` update itself — update to `FAILED` with `error_message` and
  re-raise `NotificationServiceError`. -/
def send_notification (env : DispatchEnv) : Except String Bool × List Event :=
  match env.fetched with
  | none => (.error "Notificação não encontrada", [])
  | some row =>
    if ¬ truthyStr row.whatsapp then
      (.error "WhatsApp do usuário não encontrado", [])
    else
      let formatted := format_message row.title row.message env.nowBr
      if ¬ env.sentUpdateOk then
        (.error "Erro ao processar notificação", [])
      else
        let sentWrite := Event.update .sent (some env.nowIso) none none
        let gwCall := Event.send (row.whatsapp.getD "") formatted
        if env.gatewayOk then
          if env.deliveredUpdateOk then
            (.ok true, [sentWrite, gwCall, Event.update .delivered none (some env.nowIso) none])
          else if env.failedUpdateOk then
            (.error "Erro ao enviar via WhatsApp",
             [sentWrite, gwCall, Event.update .failed none none (some "Erro ao atualizar notificação")])
          else
            (.error "Erro ao processar notificação", [sentWrite, gwCall])
        else
          if env.failedUpdateOk then
            (.error "Erro ao enviar via WhatsApp",
             [sentWrite, gwCall, Event.update .failed none none (some "Erro ao enviar mensagem")])
          else
            (.error "Erro ao processar notificação", [sentWrite, gwCall])

/-- Environment of one `process_pending_notifications` call: the result of the
`status = PENDING and scheduled_for <= now` select (already limited to 100 by
the query), either the batch with each row's dispatch environment, or the
`SupabaseClientError` it raised. -/
structure SweepEnv : Type where
  query : Except String (List DispatchEnv)

/-- `NotificationService.process_pending_notifications()`
(notification_service.py lines 256-292): for each fetched notification, call
`send_notification`, counting it when no exception was raised; any exception
is caught and logged, and the loop continues. A `SupabaseClientError` from the
select is caught and `0` is returned. Returns the count together with the
concatenated dispatch traces. -/
def process_pending_notifications (env : SweepEnv) : Nat × List Event :=
  match env.query with
  | .error _ => (0, [])
  | .ok batch =>
    batch.foldl
      (fun acc d =>
        let r := send_notification d
        ((if r.1.isOk then acc.1 + 1 else acc.1), acc.2 ++ r.2))
      (0, [])

/-! ## Response cache (`cache` decorator, redis_client.py) -/

/-- `j.isNull` is Python `value is None` for the modelled value. -/
def Json.isNull : Json → Bool
  | .null => true
  | _ => false

/-- A single-quote character, used by Python `repr` of strings and dict keys. -/
def sq : String := String.mk [Char.ofNat 39]

/-- Join rendered items with `", "`, as Python container `repr` does. -/
def pyReprCommaSep : List String → String
  | [] => ""
  | [x] => x
  | x :: xs => x ++ ", " ++ pyReprCommaSep xs

mutual

/-- Python `repr()` of the modelled values, as used inside `str()` of a tuple
or dict when the cache key is built (strings are rendered between single
quotes; dicts render in insertion order, items joined with `", "`). -/
def pyRepr : Json → String
  | .null => "None"
  | .bool b => if b then "True" else "False"
  | .num n => toString n
  | .str s => sq ++ s ++ sq
  | .arr xs => "[" ++ pyReprArr xs ++ "]"
  | .obj fs => "\x7b" ++ pyReprObj fs ++ "\x7d"

/-- `repr` of a Python list body (comma-separated element `repr`s). -/
def pyReprArr : List Json → String
  | [] => ""
  | [x] => pyRepr x
  | x :: xs => pyRepr x ++ ", " ++ pyReprArr xs

/-- `repr` of a Python dict body (comma-separated `'key': repr(value)`). -/
def pyReprObj : List (String × Json) → String
  | [] => ""
  | [(k, v)] => sq ++ k ++ sq ++ ": " ++ pyRepr v
  | (k, v) :: fs => sq ++ k ++ sq ++ ": " ++ pyRepr v ++ ", " ++ pyReprObj fs

end

/-- Python `str()`: identity on strings, `repr`-like elsewhere. -/
def pyStr : Json → String
  | .str s => s
  | j => pyRepr j

/-- Python `str(args)` where `args` is the positional-argument tuple. -/
def pyStrTuple (args : List Json) : String :=
  match args with
  | [] => "()"
  | [x] => "(" ++ pyRepr x ++ ",)"
  | xs => "(" ++ pyReprCommaSep (xs.map pyRepr) ++ ")"

/-- Python `str(kwargs)` where `kwargs` is the keyword-argument dict in
insertion order (Python dicts preserve the order the keywords were passed). -/
def pyStrKwargs (kwargs : List (String × Json)) : String :=
  "\x7b" ++ pyReprCommaSep (kwargs.map fun kv => sq ++ kv.1 ++ sq ++ ": " ++ pyRepr kv.2) ++ "\x7d"

/-- The cache key built by the `cache` decorator (redis_client.py line 183):
`f"{key_prefix}:{func.__name__}:{str(args)}:{str(kwargs)}"`. The decorated
functions are methods, so Python's `args` begins with `self`; the rendered
`self` prefix is the same for two calls on the same client instance and is
elided here. -/
def cache_key (keyPrefix funcName : String) (args : List Json)
    (kwargs : List (String × Json)) : String :=
  keyPrefix ++ ":" ++ funcName ++ ":" ++ pyStrTuple args ++ ":" ++ pyStrKwargs kwargs

/-- State of the Redis backend as the cache layer sees it: availability of the
client, the unexpired entries (an expired key is absent — Redis deletes it),
and whether the `get`/`set` round trips raise `RedisError`. Stored values are
kept as parsed JSON; `json.dumps` output is never the empty string, so the
`if value:` test in `RedisClient.get` is equivalent to key presence. -/
structure CacheEnv : Type where
  avail : Bool
  store : String → Option Json
  getError : Bool
  setError : Bool

/-- `RedisClient.get(key)` (redis_client.py lines 86-111), returning the
Python value (possibly `None`, i.e. `Json.null`): `None` when the client is
unavailable, when the backend raises, or on a missing key; otherwise
`json.loads` of the stored serialization. -/
def RedisClient_get (env : CacheEnv) (key : String) : Json :=
  if ¬ env.avail then .null
  else if env.getError then .null
  else match env.store key with
    | some j => j
    | none => .null

/-- Observable result of one call through the `cache` decorator: the value
returned (or exception propagated), whether the wrapped function ran, and the
`(key, value, ttl)` written back to Redis when the write succeeded. -/
structure CacheResult : Type where
  result : Except String Json
  computeRan : Bool
  stored : Option (String × Json × Nat)

/-- The `wrapper` built by the `cache` decorator (redis_client.py lines
177-199): build the key, return the cached value when
`cached_value is not None`, otherwise run the wrapped function, then
best-effort `RedisClient.set(key, result, ttl)` (failures and unavailability
are swallowed), and return the computed result. `compute` is the wrapped
function's outcome. -/
def cache_wrapper (ttl : Nat) (keyPrefix funcName : String) (env : CacheEnv)
    (args : List Json) (kwargs : List (String × Json))
    (compute : Except String Json) : CacheResult :=
  let key := cache_key keyPrefix funcName args kwargs
  let cached := RedisClient_get env key
  if ¬ cached.isNull then
    ⟨.ok cached, false, none⟩
  else
    match compute with
    | .error e => ⟨.error e, true, none⟩
    | .ok v =>
      if env.avail && ¬ env.setError then ⟨.ok v, true, some (key, v, ttl)⟩
      else ⟨.ok v, true, none⟩

/-! ## Record normalizers (camara_api.py, senado_api.py) -/

/-- Python `d.get(k, default)` on a dict modelled as an association list in
insertion order: never raises. -/
def dget (d : List (String × Json)) (k : String) (dflt : Json) : Json :=
  (d.lookup k).getD dflt

/-- Python `j.get(k, default)` where `j` may be any value: raises
`AttributeError` when `j` is not a dict. -/
def jget (j : Json) (k : String) (dflt : Json) : Except String Json :=
  match j with
  | .obj fs => .ok ((fs.lookup k).getD dflt)
  | _ => .error "AttributeError"

/-- `CamaraAPI.normalize_deputado(data)` (camara_api.py lines 302-329): maps a
raw deputado record to the canonical Brazyl shape. The nested accesses
`data.get("ultimoStatus", {}).get(...)` raise when `ultimoStatus` is present
but not a dict; the `Except` layer models that. -/
def normalize_deputado (data : List (String × Json)) :
    Except String (List (String × Json)) := do
  let pn ← jget (dget data "ultimoStatus" (.obj [])) "nome" (dget data "nome" (.str ""))
  let party ← jget (dget data "ultimoStatus" (.obj [])) "siglaPartido" (.str "")
  let state ← jget (dget data "ultimoStatus" (.obj [])) "siglaUf" (.str "")
  let email ← jget (dget data "ultimoStatus" (.obj [])) "email" .null
  let photo ← jget (dget data "ultimoStatus" (.obj [])) "urlFoto" .null
  pure [
    ("external_id", .str (pyStr (dget data "id" .null))),
    ("name", dget data "nomeCivil" (.str "")),
    ("parliamentary_name", pn),
    ("cpf", dget data "cpf" .null),
    ("position", .str "DEPUTADO_FEDERAL"),
    ("party", party),
    ("state", state),
    ("email", email),
    ("photo_url", photo),
    ("biography", dget data "escolaridade" .null),
    ("social_media", .obj [
      ("website", dget data "urlWebsite" .null),
      ("twitter", .null),
      ("facebook", .null),
      ("instagram", .null)])]

/-- `SenadoAPI.normalize_senador(data)` (senado_api.py lines 242-271): maps a
raw senador record to the canonical Brazyl shape through
`identificacao = data.get("IdentificacaoParlamentar", {})`. -/
def normalize_senador (data : List (String × Json)) :
    Except String (List (String × Json)) := do
  let idf := dget data "IdentificacaoParlamentar" (.obj [])
  let extId ← jget idf "CodigoParlamentar" .null
  let nome ← jget idf "NomeCompletoParlamentar" (.str "")
  let pn ← jget idf "NomeParlamentar" (.str "")
  let party ← jget idf "SiglaPartidoParlamentar" (.str "")
  let uf ← jget idf "UfParlamentar" (.str "")
  let email ← jget idf "EmailParlamentar" .null
  let photo ← jget idf "UrlFotoParlamentar" .null
  let site ← jget idf "UrlPaginaParlamentar" .null
  pure [
    ("external_id", .str (pyStr extId)),
    ("name", nome),
    ("parliamentary_name", pn),
    ("cpf", .null),
    ("position", .str "SENADOR"),
    ("party", party),
    ("state", uf),
    ("email", email),
    ("photo_url", photo),
    ("biography", .null),
    ("social_media", .obj [
      ("website", site),
      ("twitter", .null),
      ("facebook", .null),
      ("instagram", .null)])]

/-! ## Retry-client theorems (C4, C5) -/

/-- One unfolding step of the camara loop, keeping the recursive call folded. -/
theorem camaraGo_succ (endpoint : String) (f : Nat → Outcome) (retry i rem : Nat) :
    camaraGo endpoint f retry i (rem + 1) =
      match f i with
      | .success body => ⟨.ok body, [], 1⟩
      | .httpError st =>
        if st = 404 then ⟨.error (.recursoNaoEncontrado endpoint), [], 1⟩
        else if i < retry - 1 then
          ⟨(camaraGo endpoint f retry (i + 1) rem).result,
           2 ^ i :: (camaraGo endpoint f retry (i + 1) rem).sleeps,
           (camaraGo endpoint f retry (i + 1) rem).attempts + 1⟩
        else ⟨.error (.erroHTTP st endpoint), [], 1⟩
      | .connError m =>
        if i < retry - 1 then
          ⟨(camaraGo endpoint f retry (i + 1) rem).result,
           2 ^ i :: (camaraGo endpoint f retry (i + 1) rem).sleeps,
           (camaraGo endpoint f retry (i + 1) rem).attempts + 1⟩
        else ⟨.error (.erroDeConexao m), [], 1⟩ := rfl

/-- One unfolding step of the senado loop, keeping the recursive call folded. -/
theorem senadoGo_succ (endpoint : String) (f : Nat → Outcome) (retry i rem : Nat) :
    senadoGo endpoint f retry i (rem + 1) =
      match f i with
      | .success body => ⟨.ok body, [], 1⟩
      | .httpError st =>
        if st = 404 then ⟨.error (.recursoNaoEncontrado endpoint), [], 1⟩
        else if i < retry - 1 then
          ⟨(senadoGo endpoint f retry (i + 1) rem).result,
           2 ^ i :: (senadoGo endpoint f retry (i + 1) rem).sleeps,
           (senadoGo endpoint f retry (i + 1) rem).attempts + 1⟩
        else ⟨.error (.erroHTTP st endpoint), [], 1⟩
      | .connError m =>
        if i < retry - 1 then
          ⟨(senadoGo endpoint f retry (i + 1) rem).result,
           2 ^ i :: (senadoGo endpoint f retry (i + 1) rem).sleeps,
           (senadoGo endpoint f retry (i + 1) rem).attempts + 1⟩
        else ⟨.error (.erroDeConexao m), [], 1⟩ := rfl

/-- One unfolding step of the transparencia loop, keeping the recursive call
folded. -/
theorem transparenciaGo_succ (endpoint : String) (f : Nat → Outcome) (retry i rem : Nat) :
    transparenciaGo endpoint f retry i (rem + 1) =
      match f i with
      | .success body => ⟨.ok (asList body), [], 1⟩
      | .httpError st =>
        if st = 404 then ⟨.ok (.arr []), [], 1⟩
        else if i < retry - 1 then
          ⟨(transparenciaGo endpoint f retry (i + 1) rem).result,
           3 ^ i :: (transparenciaGo endpoint f retry (i + 1) rem).sleeps,
           (transparenciaGo endpoint f retry (i + 1) rem).attempts + 1⟩
        else ⟨.error (.erroHTTP st endpoint), [], 1⟩
      | .connError m =>
        if i < retry - 1 then
          ⟨(transparenciaGo endpoint f retry (i + 1) rem).result,
           3 ^ i :: (transparenciaGo endpoint f retry (i + 1) rem).sleeps,
           (transparenciaGo endpoint f retry (i + 1) rem).attempts + 1⟩
        else ⟨.error (.erroDeConexao m), [], 1⟩ := rfl

/-- When every attempt up to the last is transient, the camara loop runs all
remaining attempts, sleeping `2 ^ attempt` between consecutive ones, and ends
with the exhausted-retries error built from the last attempt's failure. -/
theorem camaraGo_exhaust (endpoint : String) (f : Nat → Outcome) (retry : Nat) :
    ∀ rem i, 0 < rem → i + rem = retry →
      (∀ k, i ≤ k → k < retry → (f k).transient) →
      camaraGo endpoint f retry i rem =
        ⟨.error (exhaust endpoint (f (retry - 1))),
         (List.range' i (rem - 1)).map (2 ^ ·), rem⟩ := by
  intro rem
  induction rem with
  | zero => intro i h0; omega
  | succ rem ih =>
    intro i _ hsum htr
    have hfi := htr i le_rfl (by omega)
    cases rem with
    | zero =>
      have hi : i = retry - 1 := by omega
      have hnlt : ¬ i < retry - 1 := by omega
      cases hf : f i with
      | success b => rw [hf] at hfi; exact absurd hfi (by simp [Outcome.transient])
      | httpError st =>
        rw [hf] at hfi
        have h404 : ¬ st = 404 := hfi
        have hfr : f (retry - 1) = .httpError st := by rw [← hi, hf]
        rw [camaraGo_succ, hf]
        simp [h404, hnlt, hfr, exhaust]
      | connError m =>
        have hfr : f (retry - 1) = .connError m := by rw [← hi, hf]
        rw [camaraGo_succ, hf]
        simp [hnlt, hfr, exhaust]
    | succ rem2 =>
      have hlt : i < retry - 1 := by omega
      have hrec := ih (i + 1) (by omega) (by omega)
        (fun k hk hk2 => htr k (by omega) hk2)
      cases hf : f i with
      | success b => rw [hf] at hfi; exact absurd hfi (by simp [Outcome.transient])
      | httpError st =>
        rw [hf] at hfi
        have h404 : ¬ st = 404 := hfi
        rw [camaraGo_succ, hf]
        simp only [if_neg h404, if_pos hlt, hrec, Nat.add_sub_cancel, List.range'_succ,
          List.map_cons]
      | connError m =>
        rw [camaraGo_succ, hf]
        simp only [if_pos hlt, hrec, Nat.add_sub_cancel, List.range'_succ, List.map_cons]

/-- The senado loop behaves exactly like the camara loop on all-transient
attempts (same base-2 backoff and exhaustion error). -/
theorem senadoGo_exhaust (endpoint : String) (f : Nat → Outcome) (retry : Nat) :
    ∀ rem i, 0 < rem → i + rem = retry →
      (∀ k, i ≤ k → k < retry → (f k).transient) →
      senadoGo endpoint f retry i rem =
        ⟨.error (exhaust endpoint (f (retry - 1))),
         (List.range' i (rem - 1)).map (2 ^ ·), rem⟩ := by
  intro rem
  induction rem with
  | zero => intro i h0; omega
  | succ rem ih =>
    intro i _ hsum htr
    have hfi := htr i le_rfl (by omega)
    cases rem with
    | zero =>
      have hi : i = retry - 1 := by omega
      have hnlt : ¬ i < retry - 1 := by omega
      cases hf : f i with
      | success b => rw [hf] at hfi; exact absurd hfi (by simp [Outcome.transient])
      | httpError st =>
        rw [hf] at hfi
        have h404 : ¬ st = 404 := hfi
        have hfr : f (retry - 1) = .httpError st := by rw [← hi, hf]
        rw [senadoGo_succ, hf]
        simp [h404, hnlt, hfr, exhaust]
      | connError m =>
        have hfr : f (retry - 1) = .connError m := by rw [← hi, hf]
        rw [senadoGo_succ, hf]
        simp [hnlt, hfr, exhaust]
    | succ rem2 =>
      have hlt : i < retry - 1 := by omega
      have hrec := ih (i + 1) (by omega) (by omega)
        (fun k hk hk2 => htr k (by omega) hk2)
      cases hf : f i with
      | success b => rw [hf] at hfi; exact absurd hfi (by simp [Outcome.transient])
      | httpError st =>
        rw [hf] at hfi
        have h404 : ¬ st = 404 := hfi
        rw [senadoGo_succ, hf]
        simp only [if_neg h404, if_pos hlt, hrec, Nat.add_sub_cancel, List.range'_succ,
          List.map_cons]
      | connError m =>
        rw [senadoGo_succ, hf]
        simp only [if_pos hlt, hrec, Nat.add_sub_cancel, List.range'_succ, List.map_cons]

/-- The transparencia loop on all-transient attempts: base-3 backoff, same
exhaustion behaviour. -/
theorem transparenciaGo_exhaust (endpoint : String) (f : Nat → Outcome) (retry : Nat) :
    ∀ rem i, 0 < rem → i + rem = retry →
      (∀ k, i ≤ k → k < retry → (f k).transient) →
      transparenciaGo endpoint f retry i rem =
        ⟨.error (exhaust endpoint (f (retry - 1))),
         (List.range' i (rem - 1)).map (3 ^ ·), rem⟩ := by
  intro rem
  induction rem with
  | zero => intro i h0; omega
  | succ rem ih =>
    intro i _ hsum htr
    have hfi := htr i le_rfl (by omega)
    cases rem with
    | zero =>
      have hi : i = retry - 1 := by omega
      have hnlt : ¬ i < retry - 1 := by omega
      cases hf : f i with
      | success b => rw [hf] at hfi; exact absurd hfi (by simp [Outcome.transient])
      | httpError st =>
        rw [hf] at hfi
        have h404 : ¬ st = 404 := hfi
        have hfr : f (retry - 1) = .httpError st := by rw [← hi, hf]
        rw [transparenciaGo_succ, hf]
        simp [h404, hnlt, hfr, exhaust]
      | connError m =>
        have hfr : f (retry - 1) = .connError m := by rw [← hi, hf]
        rw [transparenciaGo_succ, hf]
        simp [hnlt, hfr, exhaust]
    | succ rem2 =>
      have hlt : i < retry - 1 := by omega
      have hrec := ih (i + 1) (by omega) (by omega)
        (fun k hk hk2 => htr k (by omega) hk2)
      cases hf : f i with
      | success b => rw [hf] at hfi; exact absurd hfi (by simp [Outcome.transient])
      | httpError st =>
        rw [hf] at hfi
        have h404 : ¬ st = 404 := hfi
        rw [transparenciaGo_succ, hf]
        simp only [if_neg h404, if_pos hlt, hrec, Nat.add_sub_cancel, List.range'_succ,
          List.map_cons]
      | connError m =>
        rw [transparenciaGo_succ, hf]
        simp only [if_pos hlt, hrec, Nat.add_sub_cancel, List.range'_succ, List.map_cons]

/-- C4 (counterexample): a 404 on the first attempt of
`TransparenciaAPI._request` does NOT fail with a not-found error — the client
returns the empty list (`return []`, transparencia_api.py line 73). The call
still makes exactly one attempt with zero backoff waits. -/
theorem C4_counterexample :
    transparencia_request "/servidores" (fun _ => Outcome.httpError 404) 3 =
      ⟨Except.ok (Json.arr []), [], 1⟩ := rfl

/-- C4 (amended): on an HTTP 404 response on the first attempt, every client
concludes after exactly one attempt with zero retries and zero backoff waits;
the legislative clients (camara, senado) fail immediately with the not-found
error, while the transparency client instead returns the empty list without
raising. -/
theorem C4_404_single_attempt (endpoint : String) (f : Nat → Outcome) (retry : Nat)
    (hpos : 0 < retry) (h404 : f 0 = Outcome.httpError 404) :
    camara_request endpoint f retry =
      ⟨.error (.recursoNaoEncontrado endpoint), [], 1⟩ ∧
    senado_request endpoint f retry =
      ⟨.error (.recursoNaoEncontrado endpoint), [], 1⟩ ∧
    transparencia_request endpoint f retry = ⟨.ok (.arr []), [], 1⟩ := by
  obtain ⟨r, rfl⟩ : ∃ r, retry = r + 1 := ⟨retry - 1, by omega⟩
  refine ⟨?_, ?_, ?_⟩ <;>
    simp [camara_request, senado_request, transparencia_request,
      camaraGo, senadoGo, transparenciaGo, h404]

/-- Witness for C4: instantiated at `retry = 3` with a 404 on every attempt. -/
theorem C4_witness :
    camara_request "/deputados" (fun _ => Outcome.httpError 404) 3 =
      ⟨Except.error (ClientErr.recursoNaoEncontrado "/deputados"), [], 1⟩ := by
  exact (C4_404_single_attempt "/deputados" (fun _ => Outcome.httpError 404) 3
    (by decide) rfl).1

/-- C5: when every attempt fails transiently (non-404 HTTP error or connection
error), each client makes exactly `retry` attempts (default 3), sleeping
`base ^ 0, base ^ 1, …, base ^ (retry - 2)` seconds between consecutive
attempts — base 2 for the legislative clients and base 3 for the transparency
client — and then fails with the exhausted-retries `ClientErr` built from the
last attempt's error. -/
theorem C5_exhausted_retries (endpoint : String) (f : Nat → Outcome) (retry : Nat)
    (hpos : 0 < retry) (htr : ∀ i, i < retry → (f i).transient) :
    camara_request endpoint f retry =
      ⟨.error (exhaust endpoint (f (retry - 1))),
       (List.range (retry - 1)).map (2 ^ ·), retry⟩ ∧
    senado_request endpoint f retry =
      ⟨.error (exhaust endpoint (f (retry - 1))),
       (List.range (retry - 1)).map (2 ^ ·), retry⟩ ∧
    transparencia_request endpoint f retry =
      ⟨.error (exhaust endpoint (f (retry - 1))),
       (List.range (retry - 1)).map (3 ^ ·), retry⟩ := by
  have h2 := camaraGo_exhaust endpoint f retry retry 0 hpos (by omega)
    (fun k _ hk => htr k hk)
  have h3 := senadoGo_exhaust endpoint f retry retry 0 hpos (by omega)
    (fun k _ hk => htr k hk)
  have h4 := transparenciaGo_exhaust endpoint f retry retry 0 hpos (by omega)
    (fun k _ hk => htr k hk)
  rw [List.range_eq_range']
  exact ⟨h2, h3, h4⟩

/-- Witness for C5: HTTP 500 on all three attempts, with the default
`retry = 3`: waits of 1 s and 2 s (legislative) or 1 s and 3 s
(transparency), then the exhausted error carrying status 500. -/
theorem C5_witness :
    camara_request "/deputados" (fun _ => Outcome.httpError 500) 3 =
      ⟨Except.error (ClientErr.erroHTTP 500 "/deputados"), [1, 2], 3⟩ ∧
    transparencia_request "/servidores" (fun _ => Outcome.httpError 500) 3 =
      ⟨Except.error (ClientErr.erroHTTP 500 "/servidores"), [1, 3], 3⟩ := by
  have h := C5_exhausted_retries "/deputados" (fun _ => Outcome.httpError 500) 3
    (by decide) (by intro i _; simp [Outcome.transient])
  have h2 := C5_exhausted_retries "/servidores" (fun _ => Outcome.httpError 500) 3
    (by decide) (by intro i _; simp [Outcome.transient])
  refine ⟨?_, ?_⟩
  · rw [h.1]; rfl
  · rw [h2.2.2]; rfl

/-! ## Dispatcher theorems (C1, C3, C8) -/

/-- C1 (counterexample): dispatching a PENDING notification whose user has no
WhatsApp number does NOT transition it to FAILED and records no error on the
notification: `send_notification` raises
`NotificationServiceError("WhatsApp do usuário não encontrado")` with an empty
effect trace — no `update_notification_status` write at all (the stored status
stays PENDING) and no gateway call. -/
theorem C1_counterexample :
    send_notification ⟨some ⟨none, "Nova votação", "O deputado votou SIM."⟩,
        true, true, true, true, "2024-01-16T08:00:00", "16/01/2024 08:00"⟩ =
      (Except.error "WhatsApp do usuário não encontrado", []) := rfl

/-- C1 (amended): for every dispatch of a notification whose recipient address
is unresolvable (missing or empty WhatsApp number), `send_notification` raises
a `NotificationServiceError` with an explanatory message and performs zero
Delivery Gateway invocations — but also zero status writes: the notification
is left in PENDING, not transitioned to FAILED. -/
theorem C1_unresolvable_raises_without_write (env : DispatchEnv) (row : NotifRow)
    (hfetch : env.fetched = some row) (hw : truthyStr row.whatsapp = false) :
    send_notification env = (Except.error "WhatsApp do usuário não encontrado", []) := by
  simp [send_notification, hfetch, hw]

/-- Witness for C1: a fetched row whose WhatsApp number is the empty string. -/
theorem C1_witness :
    send_notification ⟨some ⟨some "", "Alerta", "Corpo da mensagem"⟩,
        true, true, true, true, "2024-01-16T08:00:00", "16/01/2024 08:00"⟩ =
      (Except.error "WhatsApp do usuário não encontrado", []) :=
  C1_unresolvable_raises_without_write _ ⟨some "", "Alerta", "Corpo da mensagem"⟩ rfl rfl

/-- C3: in every dispatch trace, any `AvisaAPI.send_message` invocation is
strictly preceded by the successful write of status SENT with `sent_at`
persisted (so the gateway is never called while the stored status is still
PENDING); and whenever the recipient is resolvable and the SENT write
succeeds, the trace begins with exactly that write followed by the gateway
call. -/
theorem C3_sent_persisted_before_gateway :
    (∀ (env : DispatchEnv) (i : Nat) (p m : String),
        (send_notification env).2.get? i = some (Event.send p m) →
        ∃ j, j < i ∧ (send_notification env).2.get? j =
          some (Event.update .sent (some env.nowIso) none none)) ∧
    (∀ (env : DispatchEnv) (row : NotifRow),
        env.fetched = some row → truthyStr row.whatsapp = true →
        env.sentUpdateOk = true →
        ∃ rest, (send_notification env).2 =
          Event.update .sent (some env.nowIso) none none ::
            Event.send (row.whatsapp.getD "")
              (format_message row.title row.message env.nowBr) :: rest) := by
  constructor
  · intro env i p m h
    obtain ⟨fetched, su, gw, du, fu, ni, nb⟩ := env
    cases fetched with
    | none => simp [send_notification] at h
    | some row =>
      by_cases hw : truthyStr row.whatsapp
      · cases su with
        | false => simp [send_notification, hw] at h
        | true =>
          refine ⟨0, ?_⟩
          cases gw <;> cases du <;> cases fu <;>
            simp only [send_notification, hw, Bool.not_true, Bool.false_eq_true,
              if_false, if_true, Bool.not_false] at h ⊢ <;>
          · rcases i with _ | _ | _ | i <;> simp_all
      · simp [send_notification, hw] at h
  · intro env row hfetch hw hsu
    obtain ⟨fetched, su, gw, du, fu, ni, nb⟩ := env
    simp only at hfetch hsu
    subst hfetch
    subst hsu
    cases gw <;> cases du <;> cases fu <;>
      simp only [send_notification, hw, Bool.not_true, Bool.not_false, if_true,
        if_false, Bool.false_eq_true, Bool.true_eq_false, not_true, not_false_iff,
        ite_true, ite_false] <;>
      exact ⟨_, rfl⟩

/-- Witness for C3: a fully successful dispatch; the gateway call sits at
index 1 of the trace, after the SENT write at index 0. -/
theorem C3_witness :
    (∃ j, j < 1 ∧
      (send_notification ⟨some ⟨some "+5511999999999", "Alerta", "Corpo"⟩,
          true, true, true, true, "2024-01-16T08:00:00", "16/01/2024 08:00"⟩).2.get? j =
        some (Event.update .sent (some "2024-01-16T08:00:00") none none)) ∧
    (∃ rest,
      (send_notification ⟨some ⟨some "+5511999999999", "Alerta", "Corpo"⟩,
          true, true, true, true, "2024-01-16T08:00:00", "16/01/2024 08:00"⟩).2 =
        Event.update .sent (some "2024-01-16T08:00:00") none none ::
          Event.send "+5511999999999"
            (format_message "Alerta" "Corpo" "16/01/2024 08:00") :: rest) := by
  constructor
  · exact C3_sent_persisted_before_gateway.1
      ⟨some ⟨some "+5511999999999", "Alerta", "Corpo"⟩,
        true, true, true, true, "2024-01-16T08:00:00", "16/01/2024 08:00"⟩
      1 "+5511999999999" (format_message "Alerta" "Corpo" "16/01/2024 08:00") rfl
  · exact C3_sent_persisted_before_gateway.2
      ⟨some ⟨some "+5511999999999", "Alerta", "Corpo"⟩,
        true, true, true, true, "2024-01-16T08:00:00", "16/01/2024 08:00"⟩
      ⟨some "+5511999999999", "Alerta", "Corpo"⟩ rfl rfl rfl

/-- The statuses written to the store by one dispatch, in order. -/
def statusWrites (env : DispatchEnv) : List NStatus :=
  (send_notification env).2.filterMap fun e =>
    match e with
    | .update st _ _ _ => some st
    | .send _ _ => none

/-- The stored status after a sequence of status writes starting from `s`
(each write overwrites the whole status column). -/
def applyWrites (s : NStatus) (ws : List NStatus) : NStatus :=
  ws.getLast?.getD s

/-- The transitions allowed by the section 4.3 state machine: forward along
PENDING → SENT → DELIVERED, with error exits PENDING → FAILED and
SENT → FAILED; nothing leaves DELIVERED or FAILED and nothing re-enters
PENDING. -/
def forwardStep : NStatus → NStatus → Prop
  | .pending, .sent => True
  | .pending, .failed => True
  | .sent, .delivered => True
  | .sent, .failed => True
  | _, _ => False

instance : DecidableRel forwardStep := by
  intro a b
  cases a <;> cases b <;> simp [forwardStep] <;> infer_instance

/-- The stated precondition of the dispatcher: each dispatch in the sequence
is invoked while the stored status is still PENDING. -/
def invokedOnPending : NStatus → List DispatchEnv → Prop
  | _, [] => True
  | s, e :: es => s = .pending ∧ invokedOnPending (applyWrites s (statusWrites e)) es

/-- All status writes produced by a sequence of dispatches, in order. -/
def seqWrites : List DispatchEnv → List NStatus
  | [] => []
  | e :: es => statusWrites e ++ seqWrites es

/-- Every single dispatch writes one of four status sequences: nothing,
`[SENT]`, `[SENT, DELIVERED]` or `[SENT, FAILED]`. -/
theorem statusWrites_shape (env : DispatchEnv) :
    statusWrites env = [] ∨ statusWrites env = [.sent] ∨
    statusWrites env = [.sent, .delivered] ∨ statusWrites env = [.sent, .failed] := by
  obtain ⟨fetched, su, gw, du, fu, ni, nb⟩ := env
  cases fetched with
  | none => left; rfl
  | some row =>
    by_cases hw : truthyStr row.whatsapp <;>
      cases su <;> cases gw <;> cases du <;> cases fu <;>
      simp [statusWrites, send_notification, hw]

/-- C8: under the stated precondition (dispatch is only invoked on a
notification currently PENDING), the sequence of stored statuses only moves
forward along the state machine: starting from PENDING, every consecutive
write is an allowed forward transition — in particular no write re-enters
PENDING and no write leaves DELIVERED or FAILED. -/
theorem C8_status_forward_only (envs : List DispatchEnv)
    (hseq : invokedOnPending .pending envs) :
    List.Chain forwardStep .pending (seqWrites envs) := by
  induction envs with
  | nil => exact List.Chain.nil
  | cons e es ih =>
    obtain ⟨-, htail⟩ := hseq
    rcases statusWrites_shape e with h | h | h | h <;>
      rw [seqWrites, h] <;> rw [h] at htail
    · exact ih htail
    · cases es with
      | nil => exact List.Chain.cons trivial List.Chain.nil
      | cons e2 es2 => exact absurd htail.1 (by simp [applyWrites])
    · cases es with
      | nil =>
        exact List.Chain.cons trivial (List.Chain.cons trivial List.Chain.nil)
      | cons e2 es2 => exact absurd htail.1 (by simp [applyWrites])
    · cases es with
      | nil =>
        exact List.Chain.cons trivial (List.Chain.cons trivial List.Chain.nil)
      | cons e2 es2 => exact absurd htail.1 (by simp [applyWrites])

/-- Witness for C8: a dispatch that fails to resolve the recipient (leaving
the notification PENDING) followed by a successful dispatch. -/
theorem C8_witness :
    List.Chain forwardStep .pending
      (seqWrites [⟨some ⟨none, "Alerta", "Corpo"⟩, true, true, true, true, "a", "b"⟩,
        ⟨some ⟨some "+5511999999999", "Alerta", "Corpo"⟩, true, true, true, true, "a", "b"⟩]) :=
  C8_status_forward_only _ ⟨rfl, rfl, trivial⟩

/-! ## Sweep theorems (C2, C10) -/

/-- The sweep fold counts exactly the dispatches whose result raised no
exception, whatever count and trace it starts from. -/
theorem sweepFold_count (batch : List DispatchEnv) :
    ∀ (n : Nat) (tr : List Event),
      (batch.foldl
        (fun acc d =>
          let r := send_notification d
          ((if r.1.isOk then acc.1 + 1 else acc.1), acc.2 ++ r.2))
        (n, tr)).1 =
      n + batch.countP (fun d => (send_notification d).1.isOk) := by
  induction batch with
  | nil => intro n tr; simp
  | cons d ds ih =>
    intro n tr
    rw [List.foldl_cons, List.countP_cons]
    cases h : (send_notification d).1.isOk
    · simp [h, ih]
    · simp [h, ih]
      omega

/-- C2 (counterexample): a batch of one due notification whose gateway call
fails. The dispatch ends in a FAILED write, `send_notification` raises, the
sweep catches the exception — and the notification is NOT counted: the sweep
returns 0, not 1. -/
theorem C2_counterexample :
    (process_pending_notifications ⟨Except.ok [⟨some ⟨some "+5511999999999", "Alerta", "Corpo"⟩,
        true, false, true, true, "2024-01-16T08:00:00", "16/01/2024 08:00"⟩]⟩).1 = 0 ∧
    Event.update .failed none none (some "Erro ao enviar mensagem") ∈
      (process_pending_notifications ⟨Except.ok [⟨some ⟨some "+5511999999999", "Alerta", "Corpo"⟩,
          true, false, true, true, "2024-01-16T08:00:00", "16/01/2024 08:00"⟩]⟩).2 := by
  refine ⟨rfl, ?_⟩
  simp [process_pending_notifications, send_notification, truthyStr]

/-- C2 (amended): `process_pending_notifications` returns the count of
notifications in the batch for which `send_notification` did not raise. A
dispatch that ends in FAILED raises `NotificationServiceError`, which the
sweep catches (so the batch continues) but does NOT count as processed. -/
theorem C2_sweep_counts_nonraising (batch : List DispatchEnv) :
    (process_pending_notifications ⟨Except.ok batch⟩).1 =
      batch.countP (fun d => (send_notification d).1.isOk) := by
  have h := sweepFold_count batch 0 []
  simpa [process_pending_notifications] using h

/-- C10: when the Notification Store select for due notifications raises
(`SupabaseClientError`), the sweep swallows the error and returns 0 without
dispatching anything. -/
theorem C10_query_error_returns_zero (msg : String) :
    process_pending_notifications ⟨Except.error msg⟩ = (0, []) := rfl

/-! ## Cache theorems (C6, C7) -/

/-- C6 (counterexample): an unexpired cache entry exists for the key, but its
stored value is `null` (the serialization of a cached Python `None`, which
`buscar_servidor_por_cpf` can return). The wrapper finds the entry,
deserializes it to `None`, treats it as a miss and invokes the wrapped
function anyway. -/
theorem C6_counterexample :
    (fun k => if k = cache_key "transparencia:servidor" "buscar_servidor_por_cpf"
          [] [("cpf", Json.str "12345678901")] then some Json.null else none)
      (cache_key "transparencia:servidor" "buscar_servidor_por_cpf"
        [] [("cpf", Json.str "12345678901")]) = some Json.null ∧
    (cache_wrapper 86400 "transparencia:servidor" "buscar_servidor_por_cpf"
      ⟨true, fun k => if k = cache_key "transparencia:servidor" "buscar_servidor_por_cpf"
          [] [("cpf", Json.str "12345678901")] then some Json.null else none, false, false⟩
      [] [("cpf", Json.str "12345678901")]
      (Except.ok Json.null)).computeRan = true := by
  refine ⟨by simp, ?_⟩
  simp [cache_wrapper, RedisClient_get, Json.isNull]

/-- C6 (amended): for every call signature with an unexpired cache entry
whose value is not `null`, the wrapper returns the cached value and does not
invoke the wrapped function — zero upstream calls. (A cached `null` is
indistinguishable from a miss and recomputes; see the counterexample.) -/
theorem C6_unexpired_hit_no_compute (ttl : Nat) (kp fname : String) (env : CacheEnv)
    (args : List Json) (kwargs : List (String × Json)) (compute : Except String Json)
    (j : Json) (hav : env.avail = true) (hge : env.getError = false)
    (hstore : env.store (cache_key kp fname args kwargs) = some j)
    (hnn : j.isNull = false) :
    cache_wrapper ttl kp fname env args kwargs compute = ⟨.ok j, false, none⟩ := by
  simp [cache_wrapper, RedisClient_get, hav, hge, hstore, hnn]

/-- Witness for C6: a concrete hit on a cached deputados page. -/
theorem C6_witness :
    cache_wrapper 3600 "camara:deputados" "get_deputados"
      ⟨true, fun k => if k = cache_key "camara:deputados" "get_deputados"
          [] [("uf", Json.str "SP")] then some (Json.str "cached") else none, false, false⟩
      [] [("uf", Json.str "SP")] (Except.ok (Json.str "fresh")) =
      ⟨Except.ok (Json.str "cached"), false, none⟩ :=
  C6_unexpired_hit_no_compute 3600 "camara:deputados" "get_deputados" _
    [] [("uf", Json.str "SP")] (Except.ok (Json.str "fresh")) (Json.str "cached")
    rfl rfl (by simp) rfl

/-- `env` with an unexpired entry `v` added under key `k` (what a successful
`RedisClient.set` leaves behind). -/
def CacheEnv.withEntry (env : CacheEnv) (k : String) (v : Json) : CacheEnv :=
  { env with store := fun k2 => if k2 = k then some v else env.store k2 }

/-- C7 (counterexample): the same parameter set passed in a different keyword
order builds a DIFFERENT cache key (`str(kwargs)` renders insertion order),
so the second call misses the entry stored by the first and recomputes. -/
theorem C7_counterexample :
    cache_key "camara:deputados" "get_deputados" []
        [("uf", Json.str "SP"), ("partido", Json.str "PT")] ≠
      cache_key "camara:deputados" "get_deputados" []
        [("partido", Json.str "PT"), ("uf", Json.str "SP")] ∧
    (cache_wrapper 3600 "camara:deputados" "get_deputados"
      ⟨true, fun k => if k = cache_key "camara:deputados" "get_deputados" []
          [("uf", Json.str "SP"), ("partido", Json.str "PT")]
        then some (Json.str "resposta") else none, false, false⟩
      [] [("partido", Json.str "PT"), ("uf", Json.str "SP")]
      (Except.ok (Json.str "resposta"))).computeRan = true := by
  constructor
  · decide
  · simp only [cache_wrapper, RedisClient_get, Bool.not_true, Bool.not_false]
    norm_num
    decide

/-- C7 (amended): the cache key is deterministic in the call signature taken
WITH the order in which parameters are supplied: a repeat call with the same
positional arguments and the same keyword order builds the same key, so the
second call hits the entry stored by the first without invoking the wrapped
function. (The same parameter set in a different keyword order builds a
different key and misses; see the counterexample.) -/
theorem C7_same_order_second_call_hits (ttl : Nat) (kp fname : String) (env : CacheEnv)
    (args : List Json) (kwargs : List (String × Json)) (v : Json)
    (compute2 : Except String Json)
    (hav : env.avail = true) (hge : env.getError = false) (hse : env.setError = false)
    (hmiss : env.store (cache_key kp fname args kwargs) = none)
    (hnn : v.isNull = false) :
    (cache_wrapper ttl kp fname env args kwargs (.ok v)).stored =
      some (cache_key kp fname args kwargs, v, ttl) ∧
    cache_wrapper ttl kp fname (env.withEntry (cache_key kp fname args kwargs) v)
        args kwargs compute2 = ⟨.ok v, false, none⟩ := by
  constructor
  · simp [cache_wrapper, RedisClient_get, hav, hge, hse, hmiss, Json.isNull]
  · simp [cache_wrapper, RedisClient_get, CacheEnv.withEntry, hav, hge, hnn]

/-- Witness for C7: a first call stores under the key, an identical second
call hits it. -/
theorem C7_witness :
    (cache_wrapper 1800 "camara:votacoes" "get_votacoes"
      ⟨true, fun _ => none, false, false⟩ [] [("pagina", Json.num 1)]
      (Except.ok (Json.str "dados"))).stored =
      some (cache_key "camara:votacoes" "get_votacoes" [] [("pagina", Json.num 1)],
        Json.str "dados", 1800) ∧
    cache_wrapper 1800 "camara:votacoes" "get_votacoes"
      (CacheEnv.withEntry ⟨true, fun _ => none, false, false⟩
        (cache_key "camara:votacoes" "get_votacoes" [] [("pagina", Json.num 1)])
        (Json.str "dados"))
      [] [("pagina", Json.num 1)] (Except.ok (Json.str "outros")) =
      ⟨Except.ok (Json.str "dados"), false, none⟩ :=
  C7_same_order_second_call_hits 1800 "camara:votacoes" "get_votacoes"
    ⟨true, fun _ => none, false, false⟩ [] [("pagina", Json.num 1)]
    (Json.str "dados") (Except.ok (Json.str "outros")) rfl rfl rfl rfl rfl

/-! ## Normalizer theorems (C9) -/

/-- A deputado record is well shaped when `ultimoStatus`, if present, is a
dict (the only shape assumption `normalize_deputado` makes beyond the
top-level dict). -/
def wfDeputado (data : List (String × Json)) : Prop :=
  ∀ j, data.lookup "ultimoStatus" = some j → ∃ fs, j = Json.obj fs

/-- A senador record is well shaped when `IdentificacaoParlamentar`, if
present, is a dict. -/
def wfSenador (data : List (String × Json)) : Prop :=
  ∀ j, data.lookup "IdentificacaoParlamentar" = some j → ∃ fs, j = Json.obj fs

/-- A computation whose `isOk` is true is an `ok` of some value. -/
theorem exists_ok_of_isOk {α β : Type} {e : Except α β} (h : e.isOk = true) :
    ∃ out, e = .ok out := by
  cases e with
  | ok b => exact ⟨b, rfl⟩
  | error a => simp [Except.isOk, Except.toBool] at h

/-- On a well-shaped record `normalize_deputado` never raises. -/
theorem normalize_deputado_isOk (data : List (String × Json)) (h : wfDeputado data) :
    ∃ out, normalize_deputado data = Except.ok out := by
  obtain ⟨fs, hfs⟩ : ∃ fs, dget data "ultimoStatus" (Json.obj []) = Json.obj fs := by
    cases hl : data.lookup "ultimoStatus" with
    | none => exact ⟨[], by simp [dget, hl]⟩
    | some j =>
      obtain ⟨fs, rfl⟩ := h j hl
      exact ⟨fs, by simp [dget, hl]⟩
  apply exists_ok_of_isOk
  simp only [normalize_deputado, hfs, jget]
  rfl

/-- On a well-shaped record `normalize_senador` never raises. -/
theorem normalize_senador_isOk (data : List (String × Json)) (h : wfSenador data) :
    ∃ out, normalize_senador data = Except.ok out := by
  obtain ⟨fs, hfs⟩ : ∃ fs, dget data "IdentificacaoParlamentar" (Json.obj []) = Json.obj fs := by
    cases hl : data.lookup "IdentificacaoParlamentar" with
    | none => exact ⟨[], by simp [dget, hl]⟩
    | some j =>
      obtain ⟨fs, rfl⟩ := h j hl
      exact ⟨fs, by simp [dget, hl]⟩
  apply exists_ok_of_isOk
  simp only [normalize_senador, hfs, jget]
  rfl

/-- C9: both normalizers tolerate missing optional fields. On any well-shaped
input record they return a canonical record without raising; a record holding
only the upstream id yields the canonical shape with every missing optional
field defaulted to `null` or the empty string. -/
theorem C9_normalizers_default_missing_fields :
    (∀ data, wfDeputado data → ∃ out, normalize_deputado data = Except.ok out) ∧
    (∀ data, wfSenador data → ∃ out, normalize_senador data = Except.ok out) ∧
    normalize_deputado [("id", Json.num 204379)] =
      Except.ok [
        ("external_id", Json.str "204379"),
        ("name", Json.str ""),
        ("parliamentary_name", Json.str ""),
        ("cpf", Json.null),
        ("position", Json.str "DEPUTADO_FEDERAL"),
        ("party", Json.str ""),
        ("state", Json.str ""),
        ("email", Json.null),
        ("photo_url", Json.null),
        ("biography", Json.null),
        ("social_media", Json.obj [
          ("website", Json.null),
          ("twitter", Json.null),
          ("facebook", Json.null),
          ("instagram", Json.null)])] ∧
    normalize_senador [("IdentificacaoParlamentar",
        Json.obj [("CodigoParlamentar", Json.num 5012)])] =
      Except.ok [
        ("external_id", Json.str "5012"),
        ("name", Json.str ""),
        ("parliamentary_name", Json.str ""),
        ("cpf", Json.null),
        ("position", Json.str "SENADOR"),
        ("party", Json.str ""),
        ("state", Json.str ""),
        ("email", Json.null),
        ("photo_url", Json.null),
        ("biography", Json.null),
        ("social_media", Json.obj [
          ("website", Json.null),
          ("twitter", Json.null),
          ("facebook", Json.null),
          ("instagram", Json.null)])] :=
  ⟨normalize_deputado_isOk, normalize_senador_isOk, rfl, rfl⟩

/-- Witness for C9: the totality parts applied to the empty record (every
field missing). -/
theorem C9_witness :
    (∃ out, normalize_deputado [] = Except.ok out) ∧
    (∃ out, normalize_senador [] = Except.ok out) :=
  ⟨C9_normalizers_default_missing_fields.1 [] (fun j hj => by simp at hj),
   C9_normalizers_default_missing_fields.2.1 [] (fun j hj => by simp at hj)⟩

end Brazyl
